import Mathlib

/-!
Shallow embedding of `src/sw.js` (the BananaPass service worker): the cache
generation lifecycle (`install` / `activate` handlers) and the request
interception policy (the `fetch` handler), together with the fragment of the
host environment (CacheStorage / Cache / fetch) that those handlers call into.

Modelling conventions:
* A `Store` (one named cache object) is an association list from request URL
  to the stored response; a `Storage` (the origin's CacheStorage) is an
  association list from cache name to store, kept in creation order, which is
  the order `caches.keys()` / `caches.match` traverse.
* The network is a function `Net : String → Option Response`; `none` models a
  `fetch` whose promise rejects (network failure), `some r` a fetch that
  resolves with response `r`.
* Each event handler is a pure function from its inputs to a result record
  whose fields record both the value the handler settles with and the
  observable effects the claims speak about (network-call count, cache writes,
  whether `console.error` ran, whether `skipWaiting` / `clients.claim` were
  invoked, and the resulting storage).
-/

namespace SW

/-- Response types of the Fetch API. `basic` is same-origin, `cors` is
cross-origin with permissive CORS, `opaq` models the "opaque" filtered type
(cross-origin without CORS, status reads as 0), `opaqRedirect` the
"opaqueredirect" type, and `errorType` a network-error response. -/
inductive ResponseType where
  | basic
  | cors
  | opaq
  | opaqRedirect
  | errorType
  | defaultType
  deriving DecidableEq

/-- The observable part of a Response: HTTP status, filtered type, payload.
`Response.clone()` in the source duplicates the stream; on this value level a
clone is the value itself, so no clone operation appears in the model. -/
structure Response where
  status : Nat
  rtype : ResponseType
  body : String
  deriving DecidableEq

/-- One named cache object: request URL ↦ stored response, in insertion order. -/
abbrev Store := List (String × Response)

/-- The origin's CacheStorage: cache name ↦ cache, in creation order. -/
abbrev Storage := List (String × Store)

/-- The network: `none` models a rejected fetch, `some r` a resolved one. -/
abbrev Net := String → Option Response

/-- An intercepted request: method and URL (`event.request`). -/
structure Request where
  method : String
  url : String
  deriving DecidableEq

/-- Whether the first list is an initial segment of the second. -/
def startsWithChars : List Char → List Char → Bool
  | [], _ => true
  | _ :: _, [] => false
  | p :: ps, c :: cs => p = c && startsWithChars ps cs

/-- JavaScript's `String.prototype.startsWith`: `strStartsWith s p` is true
iff `s` begins with the text `p`. -/
def strStartsWith (s p : String) : Bool := startsWithChars p.data s.data

/-- `sw.js` line 4: the current generation's cache name. -/
def CACHE_NAME : String := "bananapass-cache-v1"

/-- `sw.js` lines 7–17: the fixed pre-cache manifest. -/
def URLS_TO_CACHE : List String :=
  ["/", "/index.html", "/logo.png", "/manifest.json",
   "/assets/images/hero-background.jpg",
   "/assets/images/blog-oaxaca.jpg",
   "/assets/images/placeholder-post.jpg"]

/-- `cache.match` within a single cache: the first record stored under the
request URL. -/
def storeMatch (s : Store) (url : String) : Option Response :=
  match s with
  | [] => none
  | (k, v) :: rest => if k = url then some v else storeMatch rest url

/-- `caches.match(request)`: searches every cache in creation order and
returns the first hit. -/
def cachesMatch (st : Storage) (url : String) : Option Response :=
  match st with
  | [] => none
  | (_, s) :: rest =>
    match storeMatch s url with
    | some r => some r
    | none => cachesMatch rest url

/-- `cache.put(request, response)`: a later write for the same locator
overwrites the prior record. -/
def storePut (s : Store) (url : String) (r : Response) : Store :=
  match s with
  | [] => [(url, r)]
  | (k, v) :: rest =>
    if k = url then (k, r) :: rest else (k, v) :: storePut rest url r

/-- The store `caches.open name` hands out: the existing cache of that name,
or a fresh empty one. -/
def openStore (st : Storage) (name : String) : Store :=
  match st with
  | [] => []
  | (n, s) :: rest => if n = name then s else openStore rest name

/-- Replace (or create) the cache of the given name in the CacheStorage. -/
def setStore (st : Storage) (name : String) (s : Store) : Storage :=
  match st with
  | [] => [(name, s)]
  | (n, v) :: rest =>
    if n = name then (n, s) :: rest else (n, v) :: setStore rest name s

/-- `caches.open(name)` followed by `cache.put(url, r)`: write through into
the named cache, creating it if absent. -/
def writeThrough (st : Storage) (name : String) (url : String) (r : Response) :
    Storage :=
  match st with
  | [] => [(name, [(url, r)])]
  | (n, s) :: rest =>
    if n = name then (n, storePut s url r) :: rest
    else (n, s) :: writeThrough rest name url r

/-- An ok HTTP status in the sense of the Fetch standard: 200–299. -/
def okStatus (n : Nat) : Bool := 200 ≤ n && n ≤ 299

/-- Whether `Cache.addAll` accepts the outcome of fetching one manifest
entry. Per the Cache API algorithm for `addAll`, the batch is rejected if any
fetch rejects, or any response has type "error", a non-ok status, or status
206. (`addAll` is host-environment behaviour invoked at `sw.js` line 27.) -/
def addAllAccepts : Option Response → Bool
  | none => false
  | some r => !(r.rtype = ResponseType.errorType) && okStatus r.status &&
      !(r.status = 206)

/-- The batch cache-put step of `addAll`: store each fetched response in
manifest order. -/
def batchPut (net : Net) (s : Store) : List String → Store
  | [] => s
  | u :: rest =>
    match net u with
    | some r => batchPut net (storePut s u r) rest
    | none => batchPut net s rest

/-- `cache.addAll(urls)`: fetch every entry; if every outcome is acceptable,
commit all records as one batch, otherwise reject and store nothing. -/
def addAll (net : Net) (s : Store) (urls : List String) : Option Store :=
  if urls.all (fun u => addAllAccepts (net u)) then some (batchPut net s urls)
  else none

/-- Outcome of the `install` handler (`sw.js` lines 20–38). -/
structure InstallResult where
  /-- Whether the promise passed to `event.waitUntil` resolved, i.e. whether
  the browser records the installation as successful. -/
  installSucceeded : Bool
  /-- Whether `self.skipWaiting()` was invoked (line 32). -/
  skipWaitingCalled : Bool
  /-- Whether the `console.error` in the `.catch` handler ran (line 35). -/
  errorLogged : Bool
  /-- The CacheStorage after the handler settles. -/
  storage : Storage

/-- The `install` handler, `sw.js` lines 20–38: `caches.open(CACHE_NAME)`
(which creates the cache if absent), then `cache.addAll(URLS_TO_CACHE)`, then
`self.skipWaiting()`; a trailing `.catch` logs any failure. Because that
`.catch` handles the rejection and returns nothing, the promise handed to
`event.waitUntil` resolves either way, so the browser treats installation as
successful even when `addAll` failed — only `skipWaiting` is skipped. -/
def installHandler (net : Net) (st : Storage) : InstallResult :=
  match addAll net (openStore st CACHE_NAME) URLS_TO_CACHE with
  | some s' =>
    { installSucceeded := true, skipWaitingCalled := true, errorLogged := false,
      storage := setStore st CACHE_NAME s' }
  | none =>
    { installSucceeded := true, skipWaitingCalled := false, errorLogged := true,
      storage := setStore st CACHE_NAME (openStore st CACHE_NAME) }

/-- Outcome of the `activate` handler (`sw.js` lines 42–61). -/
structure ActivateResult where
  /-- The CacheStorage after every deletion attempt has settled. -/
  storage : Storage
  /-- Whether `self.clients.claim()` ran (line 58): it is in a `.then` after
  the `Promise.all`, so it is skipped when any deletion rejected. -/
  claimCalled : Bool
  /-- Whether the promise handed to `event.waitUntil` resolved. -/
  waitUntilResolved : Bool
  /-- Whether any `console.error` ran in the handler (none exists there). -/
  errorLogged : Bool
  /-- Whether the worker reached the "activated" state. Per the service
  worker lifecycle, activation proceeds to the activated state even if the
  promise given to `event.waitUntil` rejects, so this is always true. -/
  becameActive : Bool

/-- The `activate` handler, `sw.js` lines 42–61: `caches.keys()`, then
`Promise.all` over deleting every cache whose name differs from
`CACHE_NAME`, then `self.clients.claim()`. `delFails n = true` models the
environment rejecting the deletion of cache `n`. All deletions are initiated
together by the `map` before any settles, so each stale cache whose own
deletion succeeds is removed regardless of failures elsewhere; but any
rejection makes the `Promise.all` reject, skipping `clients.claim` and
rejecting the `waitUntil` promise. No `.catch` exists in this handler, so no
error is logged. -/
def activateHandler (delFails : String → Bool) (st : Storage) : ActivateResult :=
  let anyFail := st.any (fun p => !(p.1 = CACHE_NAME) && delFails p.1)
  { storage := st.filter (fun p => p.1 = CACHE_NAME || delFails p.1),
    claimCalled := !anyFail,
    waitUntilResolved := !anyFail,
    errorLogged := false,
    becameActive := true }

/-- Outcome of the `fetch` handler for one request (`sw.js` lines 64–123). -/
structure FetchResult where
  /-- Whether `event.respondWith` was called (false on the pass-through
  paths, where the default network path proceeds unobserved). -/
  intercepted : Bool
  /-- How many cache lookups (`caches.match`) the handler performed. -/
  lookups : Nat
  /-- The response the handler settles with; `none` on pass-through, and on
  the network-failure path where the `.catch` returns nothing so the request
  surfaces to the caller as a failure. -/
  response : Option Response
  /-- How many network calls (`fetch`) the handler issued. -/
  networkCalls : Nat
  /-- How many `cache.put` writes the handler performed. -/
  cacheWrites : Nat
  /-- Whether the `console.error` in the `.catch` ran (line 114). -/
  errorLogged : Bool
  /-- The CacheStorage after the handler (including the scheduled
  `cache.put`) settles. -/
  storage : Storage

/-- The `fetch` handler, `sw.js` lines 64–123. Gate: non-GET methods (line
66) and URLs not starting with "http" (line 71) pass through. Then strict
cache-first: a `caches.match` hit is returned with no network activity;
otherwise the network is fetched, and the response is written into
`CACHE_NAME` only when its status is exactly 200 and its type is "basic" or
"cors" (line 97; the `!networkResponse` disjunct there is vacuous, since a
resolved fetch always yields a response — a failed fetch rejects and lands in
the `.catch` at line 113 instead, which logs and produces no response). -/
def handleFetch (net : Net) (st : Storage) (req : Request) : FetchResult :=
  if !(req.method = "GET") then
    { intercepted := false, lookups := 0, response := none, networkCalls := 0,
      cacheWrites := 0, errorLogged := false, storage := st }
  else if !(strStartsWith req.url "http") then
    { intercepted := false, lookups := 0, response := none, networkCalls := 0,
      cacheWrites := 0, errorLogged := false, storage := st }
  else
    match cachesMatch st req.url with
    | some r =>
      { intercepted := true, lookups := 1, response := some r,
        networkCalls := 0, cacheWrites := 0, errorLogged := false,
        storage := st }
    | none =>
      match net req.url with
      | none =>
        { intercepted := true, lookups := 1, response := none,
          networkCalls := 1, cacheWrites := 0, errorLogged := true,
          storage := st }
      | some nr =>
        if !(nr.status = 200) ||
            (!(nr.rtype = ResponseType.basic) && !(nr.rtype = ResponseType.cors)) then
          { intercepted := true, lookups := 1, response := some nr,
            networkCalls := 1, cacheWrites := 0, errorLogged := false,
            storage := st }
        else
          { intercepted := true, lookups := 1, response := some nr,
            networkCalls := 1, cacheWrites := 1, errorLogged := false,
            storage := writeThrough st CACHE_NAME req.url nr }

/-- Characters before the first colon. -/
def upToColon : List Char → List Char
  | [] => []
  | c :: rest => if c = ':' then [] else c :: upToColon rest

/-- The scheme of a URL string: the part before the first ":" (used only to
state claims about HTTP(S) schemes; the source itself checks a "http"
text-prefix, not the scheme). -/
def urlScheme (u : String) : String := String.mk (upToColon u.data)

/-! ### Store lemmas -/

theorem storeMatch_storePut_self (s : Store) (url : String) (r : Response) :
    storeMatch (storePut s url r) url = some r := by
  induction s with
  | nil => simp [storePut, storeMatch]
  | cons p rest ih =>
    obtain ⟨k, v⟩ := p
    by_cases h : k = url <;> simp [storePut, storeMatch, h, ih]

theorem storeMatch_storePut_other (s : Store) (url v : String) (r : Response)
    (h : v ≠ url) : storeMatch (storePut s url r) v = storeMatch s v := by
  induction s with
  | nil => simp [storePut, storeMatch, Ne.symm h]
  | cons p rest ih =>
    obtain ⟨k, w⟩ := p
    by_cases hk : k = url
    · subst hk
      simp [storePut, storeMatch, Ne.symm h]
    · by_cases hv : k = v <;> simp [storePut, storeMatch, hk, hv, ih, h]

theorem openStore_setStore_self (st : Storage) (n : String) (s : Store) :
    openStore (setStore st n s) n = s := by
  induction st with
  | nil => simp [setStore, openStore]
  | cons p rest ih =>
    obtain ⟨k, v⟩ := p
    by_cases h : k = n <;> simp [setStore, openStore, h, ih]

theorem openStore_writeThrough (st : Storage) (n m url : String) (r : Response) :
    openStore (writeThrough st n url r) m =
      if m = n then storePut (openStore st n) url r else openStore st m := by
  induction st with
  | nil =>
    by_cases h : m = n
    · subst h
      simp [writeThrough, openStore, storePut]
    · have h' : ¬(n = m) := fun hh => h hh.symm
      simp [writeThrough, openStore, h, h']
  | cons p rest ih =>
    obtain ⟨k, s⟩ := p
    by_cases hk : k = n
    · subst hk
      by_cases hm : m = k
      · subst hm
        simp [writeThrough, openStore]
      · have h2 : ¬(k = m) := fun hh => hm hh.symm
        simp [writeThrough, openStore, hm, h2]
    · by_cases hm : k = m
      · subst hm
        have hmn : ¬(k = n) := hk
        simp [writeThrough, openStore, hk, hmn]
      · simp [writeThrough, openStore, hk, hm, ih]

theorem cachesMatch_writeThrough_self (st : Storage) (n url : String) (r : Response)
    (h : cachesMatch st url = none) :
    cachesMatch (writeThrough st n url r) url = some r := by
  induction st with
  | nil => simp [writeThrough, cachesMatch, storeMatch]
  | cons p rest ih =>
    obtain ⟨k, s⟩ := p
    rw [cachesMatch] at h
    cases hms : storeMatch s url with
    | some rr => rw [hms] at h; cases h
    | none =>
      rw [hms] at h
      by_cases hk : k = n
      · subst hk
        simp [writeThrough, cachesMatch, storeMatch_storePut_self]
      · simp [writeThrough, cachesMatch, hk, hms, ih h]

theorem storeMatch_batchPut_notmem (net : Net) (u : String) (urls : List String)
    (h : u ∉ urls) : ∀ s, storeMatch (batchPut net s urls) u = storeMatch s u := by
  induction urls with
  | nil => intro s; rfl
  | cons v rest ih =>
    intro s
    simp only [List.mem_cons, not_or] at h
    obtain ⟨hne, hrest⟩ := h
    cases hv : net v with
    | none => simpa [batchPut, hv] using ih hrest s
    | some r =>
      rw [batchPut]
      rw [hv]
      rw [ih hrest]
      exact storeMatch_storePut_other s v u r hne

theorem storeMatch_batchPut_mem (net : Net) (u : String) (r : Response)
    (hr : net u = some r) :
    ∀ (urls : List String), u ∈ urls →
      ∀ s, storeMatch (batchPut net s urls) u = some r := by
  intro urls
  induction urls with
  | nil => intro h; cases h
  | cons v rest ih =>
    intro hmem s
    by_cases hur : u ∈ rest
    · cases hv : net v with
      | none => simpa [batchPut, hv] using ih hur s
      | some rv => simpa [batchPut, hv] using ih hur (storePut s v rv)
    · have hv_eq : v = u := by
        rcases List.mem_cons.mp hmem with h | h
        · exact h.symm
        · exact absurd h hur
      subst hv_eq
      rw [batchPut, hr, storeMatch_batchPut_notmem net v rest hur]
      exact storeMatch_storePut_self s v r

/-! ### Path lemmas for the fetch handler -/

/-- On a cache miss with an eligible network response (status 200, type
"basic" or "cors"), the handler returns the network response and writes it
through into `CACHE_NAME`. -/
theorem handleFetch_eligible_eq (net : Net) (st : Storage) (req : Request)
    (nr : Response)
    (hm : req.method = "GET") (hu : strStartsWith req.url "http" = true)
    (hmiss : cachesMatch st req.url = none) (hnet : net req.url = some nr)
    (h200 : nr.status = 200)
    (hty : nr.rtype = ResponseType.basic ∨ nr.rtype = ResponseType.cors) :
    handleFetch net st req =
      { intercepted := true, lookups := 1, response := some nr,
        networkCalls := 1, cacheWrites := 1, errorLogged := false,
        storage := writeThrough st CACHE_NAME req.url nr } := by
  rcases hty with hb | hc
  · simp [handleFetch, hm, hu, hmiss, hnet, h200, hb]
  · simp [handleFetch, hm, hu, hmiss, hnet, h200, hc]

/-- A write-through into `CACHE_NAME` at one locator leaves every other
(cache name, locator) pair of the storage unchanged. -/
theorem writeThrough_frame (st : Storage) (url : String) (nr : Response)
    (name u : String) (hx : ¬(name = CACHE_NAME ∧ u = url)) :
    storeMatch (openStore (writeThrough st CACHE_NAME url nr) name) u =
      storeMatch (openStore st name) u := by
  rw [openStore_writeThrough]
  by_cases hn : name = CACHE_NAME
  · subst hn
    have hune : u ≠ url := fun huu => hx ⟨rfl, huu⟩
    simp [storeMatch_storePut_other _ _ _ _ hune]
  · simp [hn]

/-- Requests that fail the eligibility gate (non-GET method, or a URL not
starting with "http") pass through: no lookup, no network call by the
handler, no write, storage unchanged. -/
theorem handleFetch_passthrough (net : Net) (st : Storage) (req : Request)
    (h : ¬(req.method = "GET") ∨ strStartsWith req.url "http" = false) :
    handleFetch net st req =
      { intercepted := false, lookups := 0, response := none, networkCalls := 0,
        cacheWrites := 0, errorLogged := false, storage := st } := by
  rcases h with hm | hu
  · simp [handleFetch, hm]
  · by_cases hm : req.method = "GET"
    · simp [handleFetch, hm, hu]
    · simp [handleFetch, hm]

/-! ### Concrete environments used by counterexamples and witnesses -/

/-- A network on which every fetch resolves with a 200 same-origin response. -/
def netAll200 : Net :=
  fun _ => some { status := 200, rtype := ResponseType.basic, body := "ok" }

/-- A network on which fetching the manifest entry "/logo.png" rejects and
every other fetch resolves with a 200 same-origin response. -/
def netLogoFails : Net :=
  fun u => if u = "/logo.png" then none
           else some { status := 200, rtype := ResponseType.basic, body := "ok" }

/-- A network on which "/logo.png" resolves with 204 No Content (an ok
status accepted by `Cache.addAll`) and every other fetch resolves with 200. -/
def netLogo204 : Net :=
  fun u =>
    if u = "/logo.png" then
      some { status := 204, rtype := ResponseType.basic, body := "" }
    else some { status := 200, rtype := ResponseType.basic, body := "ok" }

/-- A network on which every fetch rejects. -/
def netUnreachable : Net := fun _ => none

/-- An environment in which deleting the cache named "bananapass-cache-v0"
rejects and every other deletion succeeds. -/
def delFailsV0 : String → Bool := fun n => n = "bananapass-cache-v0"

/-- An environment in which every cache deletion succeeds. -/
def delNoneFail : String → Bool := fun _ => false

/-- A sample cached 200 response. -/
def respHello : Response :=
  { status := 200, rtype := ResponseType.basic, body := "hello" }

/-- A GET request for an already-cached asset. -/
def reqLogo : Request :=
  { method := "GET", url := "https://bananapass.dev/logo.png" }

/-- A store holding `respHello` under `reqLogo`'s locator. -/
def hitStore : Store := [("https://bananapass.dev/logo.png", respHello)]

/-- A GET request for a not-yet-cached asset. -/
def reqLib : Request := { method := "GET", url := "https://cdn.example/lib.js" }

/-- A POST request (ineligible method). -/
def reqPost : Request :=
  { method := "POST", url := "https://bananapass.dev/api/submit" }

/-- A network answering every fetch with 404. -/
def net404 : Net :=
  fun _ => some { status := 404, rtype := ResponseType.basic, body := "nf" }

/-- A three-cache storage: a stale v0 cache, the current cache, and a second
stale cache. -/
def threeCaches : Storage :=
  [("bananapass-cache-v0", []), (CACHE_NAME, []), ("bananapass-cache-old2", [])]

/-- A two-cache storage: the current cache and a stale v0 cache. -/
def twoCaches : Storage := [(CACHE_NAME, []), ("bananapass-cache-v0", [])]

/-! ### Claims -/

/-- C1 (code bug): the claim says that when a manifest entry cannot be
fetched during install, the install operation reports failure and the
lifecycle does not proceed to activation. The code violates this: the
`.catch` at `sw.js` line 34 swallows the `addAll` rejection, so the promise
given to `event.waitUntil` resolves and the browser records the installation
as successful — the worker proceeds toward activation with an unpopulated
cache (only `skipWaiting` is skipped, and the error is merely logged). This
theorem evaluates the handler on a network where fetching "/logo.png"
rejects: installation nevertheless succeeds and the entry is absent. -/
theorem C1_install_failure_swallowed :
    (installHandler netLogoFails []).installSucceeded = true ∧
    (installHandler netLogoFails []).skipWaitingCalled = false ∧
    (installHandler netLogoFails []).errorLogged = true ∧
    storeMatch (openStore (installHandler netLogoFails []).storage CACHE_NAME)
      "/logo.png" = none := by decide

/-- C2 (confirmed): for a GET HTTP(S) request whose locator has a Cache
Record in the current generation's store (after activation the current
generation is the only cache, see C4), `handle` returns that stored response
with zero network calls, no cache write, and unchanged storage. -/
theorem C2_cache_hit_zero_network (net : Net) (s : Store) (req : Request)
    (r : Response)
    (hm : req.method = "GET") (hu : strStartsWith req.url "http" = true)
    (hs : storeMatch s req.url = some r) :
    (handleFetch net [(CACHE_NAME, s)] req).response = some r ∧
    (handleFetch net [(CACHE_NAME, s)] req).networkCalls = 0 ∧
    (handleFetch net [(CACHE_NAME, s)] req).cacheWrites = 0 ∧
    (handleFetch net [(CACHE_NAME, s)] req).storage = [(CACHE_NAME, s)] := by
  have hcm : cachesMatch [(CACHE_NAME, s)] req.url = some r := by
    simp [cachesMatch, hs]
  simp [handleFetch, hm, hu, hcm]

/-- Witness for C2 at a concrete hit: even with an unreachable network the
cached response is served. -/
theorem C2_cache_hit_zero_network_witness :
    reqLogo.method = "GET" ∧ strStartsWith reqLogo.url "http" = true ∧
    storeMatch hitStore reqLogo.url = some respHello ∧
    ((handleFetch netUnreachable [(CACHE_NAME, hitStore)] reqLogo).response =
        some respHello ∧
      (handleFetch netUnreachable [(CACHE_NAME, hitStore)] reqLogo).networkCalls = 0 ∧
      (handleFetch netUnreachable [(CACHE_NAME, hitStore)] reqLogo).cacheWrites = 0 ∧
      (handleFetch netUnreachable [(CACHE_NAME, hitStore)] reqLogo).storage =
        [(CACHE_NAME, hitStore)]) :=
  ⟨rfl, by decide, by decide,
    C2_cache_hit_zero_network netUnreachable hitStore reqLogo respHello rfl
      (by decide) (by decide)⟩

/-- C3 (confirmed): on a cache miss, a Cache Record is created iff the
network response exists, has status exactly 200, and has type "basic" or
"cors"; an ineligible response is still returned to the caller unchanged,
with no record created and the storage untouched. -/
theorem C3_cacheability_iff (net : Net) (st : Storage) (req : Request)
    (hm : req.method = "GET") (hu : strStartsWith req.url "http" = true)
    (hmiss : cachesMatch st req.url = none) :
    ((handleFetch net st req).cacheWrites = 1 ↔
      ∃ nr, net req.url = some nr ∧ nr.status = 200 ∧
        (nr.rtype = ResponseType.basic ∨ nr.rtype = ResponseType.cors)) ∧
    (∀ nr, net req.url = some nr →
      ¬(nr.status = 200 ∧
          (nr.rtype = ResponseType.basic ∨ nr.rtype = ResponseType.cors)) →
      (handleFetch net st req).response = some nr ∧
      (handleFetch net st req).cacheWrites = 0 ∧
      (handleFetch net st req).storage = st) := by
  cases hnet : net req.url with
  | none => simp [handleFetch, hm, hu, hmiss, hnet]
  | some nr =>
    by_cases h200 : nr.status = 200
    · by_cases hb : nr.rtype = ResponseType.basic
      · simp [handleFetch, hm, hu, hmiss, hnet, h200, hb]
      · by_cases hc : nr.rtype = ResponseType.cors
        · simp [handleFetch, hm, hu, hmiss, hnet, h200, hb, hc]
        · simp [handleFetch, hm, hu, hmiss, hnet, h200, hb, hc]
    · simp [handleFetch, hm, hu, hmiss, hnet, h200]

/-- Witness for C3 at a concrete miss answered by a 404: no record is
created, the 404 is still returned. -/
theorem C3_cacheability_iff_witness :
    reqLib.method = "GET" ∧ strStartsWith reqLib.url "http" = true ∧
    cachesMatch [(CACHE_NAME, [])] reqLib.url = none ∧
    (((handleFetch net404 [(CACHE_NAME, [])] reqLib).cacheWrites = 1 ↔
        ∃ nr, net404 reqLib.url = some nr ∧ nr.status = 200 ∧
          (nr.rtype = ResponseType.basic ∨ nr.rtype = ResponseType.cors)) ∧
      (∀ nr, net404 reqLib.url = some nr →
        ¬(nr.status = 200 ∧
            (nr.rtype = ResponseType.basic ∨ nr.rtype = ResponseType.cors)) →
        (handleFetch net404 [(CACHE_NAME, [])] reqLib).response = some nr ∧
        (handleFetch net404 [(CACHE_NAME, [])] reqLib).cacheWrites = 0 ∧
        (handleFetch net404 [(CACHE_NAME, [])] reqLib).storage =
          [(CACHE_NAME, [])])) :=
  ⟨rfl, by decide, by decide,
    C3_cacheability_iff net404 [(CACHE_NAME, [])] reqLib rfl (by decide)
      (by decide)⟩

/-- C4 (confirmed): when every deletion succeeds, a generation name that was
in the store enumeration remains there after the activate-time reclaim iff it
equals the current generation's name. -/
theorem C4_reclaim_only_current_remains (delFails : String → Bool)
    (st : Storage) (hok : ∀ n, delFails n = false) (g : String)
    (hg : g ∈ st.map Prod.fst) :
    (g ∈ ((activateHandler delFails st).storage.map Prod.fst)) ↔
      g = CACHE_NAME := by
  simp only [activateHandler, List.mem_map, List.mem_filter]
  constructor
  · rintro ⟨p, ⟨hpst, hpc⟩, rfl⟩
    simp [hok] at hpc
    exact hpc
  · rintro rfl
    rcases List.mem_map.mp hg with ⟨p, hpst, hpg⟩
    refine ⟨p, ⟨hpst, ?_⟩, hpg⟩
    simp [hok, hpg]

/-- Witness for C4: after reclaim on a two-cache storage, the stale v0 cache
name no longer appears in the enumeration. -/
theorem C4_reclaim_only_current_remains_witness :
    (∀ n, delNoneFail n = false) ∧
    "bananapass-cache-v0" ∈ twoCaches.map Prod.fst ∧
    (("bananapass-cache-v0" ∈
        ((activateHandler delNoneFail twoCaches).storage.map Prod.fst)) ↔
      "bananapass-cache-v0" = CACHE_NAME) :=
  ⟨fun _ => rfl, by decide,
    C4_reclaim_only_current_remains delNoneFail twoCaches (fun _ => rfl)
      "bananapass-cache-v0" (by decide)⟩

/-- C5 (counterexample to the claim as stated): `Cache.addAll` accepts any
ok-status response, not only status exactly 200. On a network where
"/logo.png" resolves with 204 No Content, the install genuinely succeeds (no
error logged, `skipWaiting` reached), yet the lookup by that manifest entry's
locator returns a response whose status is 204, not 200. -/
theorem C5_counterexample_status204 :
    (installHandler netLogo204 []).errorLogged = false ∧
    (installHandler netLogo204 []).skipWaitingCalled = true ∧
    (storeMatch (openStore (installHandler netLogo204 []).storage CACHE_NAME)
        "/logo.png").map Response.status = some 204 := by decide

/-- C5 (amended): after a successful install (the `addAll` promise resolved,
so no error was logged), a cache lookup in the new generation's store by any
manifest entry's locator returns exactly the response the network gave for
that entry, and that response has an ok status (200–299) other than 206. -/
theorem C5_amended_install_entries_ok (net : Net) (st : Storage) (u : String)
    (hu : u ∈ URLS_TO_CACHE)
    (hsucc : (installHandler net st).errorLogged = false) :
    ∃ r, net u = some r ∧
      storeMatch (openStore (installHandler net st).storage CACHE_NAME) u =
        some r ∧
      okStatus r.status = true ∧ r.status ≠ 206 := by
  cases hadd : addAll net (openStore st CACHE_NAME) URLS_TO_CACHE with
  | none =>
    exfalso
    unfold installHandler at hsucc
    rw [hadd] at hsucc
    simp at hsucc
  | some s' =>
    have hall : URLS_TO_CACHE.all (fun v => addAllAccepts (net v)) = true := by
      by_contra hno
      have hnone : addAll net (openStore st CACHE_NAME) URLS_TO_CACHE = none := by
        unfold addAll
        rw [if_neg hno]
      rw [hnone] at hadd
      cases hadd
    have hacc : addAllAccepts (net u) = true := List.all_eq_true.mp hall u hu
    cases hnu : net u with
    | none => rw [hnu] at hacc; simp [addAllAccepts] at hacc
    | some r =>
      rw [hnu] at hacc
      simp only [addAllAccepts, Bool.and_eq_true, Bool.not_eq_true',
        decide_eq_false_iff_not] at hacc
      obtain ⟨⟨_, hok⟩, h206⟩ := hacc
      have hs' : s' = batchPut net (openStore st CACHE_NAME) URLS_TO_CACHE := by
        unfold addAll at hadd
        rw [if_pos hall] at hadd
        exact (Option.some.inj hadd).symm
      have hres : (installHandler net st).storage = setStore st CACHE_NAME s' := by
        unfold installHandler
        rw [hadd]
      refine ⟨r, rfl, ?_, hok, h206⟩
      rw [hres, openStore_setStore_self, hs']
      exact storeMatch_batchPut_mem net u r hnu URLS_TO_CACHE hu _

/-- Witness for the amended C5 on a network where every fetch gives 200. -/
theorem C5_amended_install_entries_ok_witness :
    "/logo.png" ∈ URLS_TO_CACHE ∧
    (installHandler netAll200 []).errorLogged = false ∧
    (∃ r, netAll200 "/logo.png" = some r ∧
      storeMatch (openStore (installHandler netAll200 []).storage CACHE_NAME)
        "/logo.png" = some r ∧
      okStatus r.status = true ∧ r.status ≠ 206) :=
  ⟨by decide, by decide,
    C5_amended_install_entries_ok netAll200 [] "/logo.png" (by decide)
      (by decide)⟩

/-- C6 (counterexample to the claim as stated): the source gate checks
`url.startsWith('http')`, not the URL scheme, so a GET request whose scheme
is "httpx" — neither HTTP nor HTTPS — is intercepted anyway: a cache lookup
is performed and (the network answering 200/basic) a store write occurs. -/
theorem C6_counterexample_scheme :
    urlScheme "httpx://a" ≠ "http" ∧ urlScheme "httpx://a" ≠ "https" ∧
    (handleFetch netAll200 [] { method := "GET", url := "httpx://a" }).intercepted
      = true ∧
    (handleFetch netAll200 [] { method := "GET", url := "httpx://a" }).lookups
      = 1 ∧
    (handleFetch netAll200 [] { method := "GET", url := "httpx://a" }).cacheWrites
      = 1 := by decide

/-- C6 (amended): for every request whose method is not GET or whose URL
does not start with the text "http", the handler does not intercept: no
cache lookup, no network call by the handler, no store write, and the
storage is unchanged. -/
theorem C6_amended_gate_passthrough (net : Net) (st : Storage) (req : Request)
    (h : ¬(req.method = "GET") ∨ strStartsWith req.url "http" = false) :
    (handleFetch net st req).intercepted = false ∧
    (handleFetch net st req).lookups = 0 ∧
    (handleFetch net st req).networkCalls = 0 ∧
    (handleFetch net st req).cacheWrites = 0 ∧
    (handleFetch net st req).storage = st := by
  rw [handleFetch_passthrough net st req h]
  exact ⟨rfl, rfl, rfl, rfl, rfl⟩

/-- Witness for the amended C6 on a concrete POST request. -/
theorem C6_amended_gate_passthrough_witness :
    (¬(reqPost.method = "GET") ∨ strStartsWith reqPost.url "http" = false) ∧
    ((handleFetch netAll200 [(CACHE_NAME, hitStore)] reqPost).intercepted = false ∧
      (handleFetch netAll200 [(CACHE_NAME, hitStore)] reqPost).lookups = 0 ∧
      (handleFetch netAll200 [(CACHE_NAME, hitStore)] reqPost).networkCalls = 0 ∧
      (handleFetch netAll200 [(CACHE_NAME, hitStore)] reqPost).cacheWrites = 0 ∧
      (handleFetch netAll200 [(CACHE_NAME, hitStore)] reqPost).storage =
        [(CACHE_NAME, hitStore)]) :=
  ⟨Or.inl (by decide),
    C6_amended_gate_passthrough netAll200 [(CACHE_NAME, hitStore)] reqPost
      (Or.inl (by decide))⟩

/-- C7 (counterexample to the claim as stated): when deleting the stale
cache "bananapass-cache-v0" rejects, no error is logged (the activate
handler has no catch), and the rejection aborts the handler's chain:
`clients.claim` is skipped. (The other stale cache is still deleted and the
worker still becomes active; see the amended theorem.) -/
theorem C7_counterexample_failure_unlogged :
    (activateHandler delFailsV0 threeCaches).errorLogged = false ∧
    (activateHandler delFailsV0 threeCaches).claimCalled = false ∧
    (activateHandler delFailsV0 threeCaches).waitUntilResolved = false ∧
    (activateHandler delFailsV0 threeCaches).becameActive = true ∧
    (activateHandler delFailsV0 threeCaches).storage.map Prod.fst =
      ["bananapass-cache-v0", CACHE_NAME] := by decide

/-- C7 (amended): a failure to delete one stale generation is neither caught
nor logged by the handler, and the rejection skips `clients.claim`; but all
deletions are initiated together, so every stale generation whose own
deletion succeeds is still removed, and the worker still becomes active (the
platform does not block activation on a rejected waitUntil promise). -/
theorem C7_amended_failures_nonblocking (delFails : String → Bool)
    (st : Storage) (g : String) (hg : g ∈ st.map Prod.fst)
    (hgn : g ≠ CACHE_NAME) (hgok : delFails g = false) :
    g ∉ ((activateHandler delFails st).storage.map Prod.fst) ∧
    (activateHandler delFails st).becameActive = true ∧
    (activateHandler delFails st).errorLogged = false := by
  refine ⟨?_, rfl, rfl⟩
  intro hmem
  simp only [activateHandler, List.mem_map, List.mem_filter] at hmem
  obtain ⟨p, ⟨hp, hcond⟩, hpg⟩ := hmem
  rw [hpg] at hcond
  simp [hgn, hgok] at hcond

/-- Witness for the amended C7: with v0's deletion rejecting, the other
stale cache is still deleted and the worker is active. -/
theorem C7_amended_failures_nonblocking_witness :
    "bananapass-cache-old2" ∈ threeCaches.map Prod.fst ∧
    "bananapass-cache-old2" ≠ CACHE_NAME ∧
    delFailsV0 "bananapass-cache-old2" = false ∧
    ("bananapass-cache-old2" ∉
        ((activateHandler delFailsV0 threeCaches).storage.map Prod.fst) ∧
      (activateHandler delFailsV0 threeCaches).becameActive = true ∧
      (activateHandler delFailsV0 threeCaches).errorLogged = false) :=
  ⟨by decide, by decide, by decide,
    C7_amended_failures_nonblocking delFailsV0 threeCaches
      "bananapass-cache-old2" (by decide) (by decide) (by decide)⟩

/-- The 200/basic response that `netAll200` answers with. -/
def respOk200 : Response :=
  { status := 200, rtype := ResponseType.basic, body := "ok" }

/-- C8 (confirmed): invoking the handler twice on a previously-uncached,
cacheable locator makes exactly one network call the first time and zero the
second time, and both invocations return the same response — in particular
identical payload content. -/
theorem C8_idempotent_single_fetch (net : Net) (st : Storage) (req : Request)
    (nr : Response)
    (hm : req.method = "GET") (hu : strStartsWith req.url "http" = true)
    (hmiss : cachesMatch st req.url = none)
    (hnet : net req.url = some nr)
    (h200 : nr.status = 200)
    (hty : nr.rtype = ResponseType.basic ∨ nr.rtype = ResponseType.cors) :
    (handleFetch net st req).networkCalls = 1 ∧
    (handleFetch net (handleFetch net st req).storage req).networkCalls = 0 ∧
    (handleFetch net st req).response = some nr ∧
    (handleFetch net (handleFetch net st req).storage req).response = some nr ∧
    (handleFetch net st req).response.map Response.body =
      (handleFetch net (handleFetch net st req).storage req).response.map
        Response.body := by
  have h1 := handleFetch_eligible_eq net st req nr hm hu hmiss hnet h200 hty
  have hcm2 : cachesMatch (writeThrough st CACHE_NAME req.url nr) req.url =
      some nr :=
    cachesMatch_writeThrough_self st CACHE_NAME req.url nr hmiss
  rw [h1]
  simp [handleFetch, hm, hu, hcm2]

/-- Witness for C8 on a concrete uncached locator and a 200 network. -/
theorem C8_idempotent_single_fetch_witness :
    reqLib.method = "GET" ∧ strStartsWith reqLib.url "http" = true ∧
    cachesMatch [(CACHE_NAME, [])] reqLib.url = none ∧
    netAll200 reqLib.url = some respOk200 ∧
    respOk200.status = 200 ∧
    (respOk200.rtype = ResponseType.basic ∨
      respOk200.rtype = ResponseType.cors) ∧
    ((handleFetch netAll200 [(CACHE_NAME, [])] reqLib).networkCalls = 1 ∧
      (handleFetch netAll200
          (handleFetch netAll200 [(CACHE_NAME, [])] reqLib).storage
          reqLib).networkCalls = 0 ∧
      (handleFetch netAll200 [(CACHE_NAME, [])] reqLib).response =
        some respOk200 ∧
      (handleFetch netAll200
          (handleFetch netAll200 [(CACHE_NAME, [])] reqLib).storage
          reqLib).response = some respOk200 ∧
      (handleFetch netAll200 [(CACHE_NAME, [])] reqLib).response.map
          Response.body =
        (handleFetch netAll200
            (handleFetch netAll200 [(CACHE_NAME, [])] reqLib).storage
            reqLib).response.map Response.body) :=
  ⟨rfl, by decide, by decide, by decide, rfl, Or.inl rfl,
    C8_idempotent_single_fetch netAll200 [(CACHE_NAME, [])] reqLib respOk200
      rfl (by decide) (by decide) (by decide) rfl (Or.inl rfl)⟩

/-- C9 (confirmed): on a cache miss whose network fetch rejects, the handler
ends in the Failed terminal state: the response was intercepted, the error is
logged by the catch handler, no synthetic fallback response is produced (it
settles with no response, which surfaces to the caller as a failed request),
no record is written, and the storage is unchanged. -/
theorem C9_network_failure_no_fallback (net : Net) (st : Storage)
    (req : Request)
    (hm : req.method = "GET") (hu : strStartsWith req.url "http" = true)
    (hmiss : cachesMatch st req.url = none) (hfail : net req.url = none) :
    (handleFetch net st req).intercepted = true ∧
    (handleFetch net st req).response = none ∧
    (handleFetch net st req).errorLogged = true ∧
    (handleFetch net st req).networkCalls = 1 ∧
    (handleFetch net st req).cacheWrites = 0 ∧
    (handleFetch net st req).storage = st := by
  simp [handleFetch, hm, hu, hmiss, hfail]

/-- Witness for C9 on a concrete miss with an unreachable network. -/
theorem C9_network_failure_no_fallback_witness :
    reqLib.method = "GET" ∧ strStartsWith reqLib.url "http" = true ∧
    cachesMatch [(CACHE_NAME, [])] reqLib.url = none ∧
    netUnreachable reqLib.url = none ∧
    ((handleFetch netUnreachable [(CACHE_NAME, [])] reqLib).intercepted = true ∧
      (handleFetch netUnreachable [(CACHE_NAME, [])] reqLib).response = none ∧
      (handleFetch netUnreachable [(CACHE_NAME, [])] reqLib).errorLogged = true ∧
      (handleFetch netUnreachable [(CACHE_NAME, [])] reqLib).networkCalls = 1 ∧
      (handleFetch netUnreachable [(CACHE_NAME, [])] reqLib).cacheWrites = 0 ∧
      (handleFetch netUnreachable [(CACHE_NAME, [])] reqLib).storage =
        [(CACHE_NAME, [])]) :=
  ⟨rfl, by decide, by decide, rfl,
    C9_network_failure_no_fallback netUnreachable [(CACHE_NAME, [])] reqLib
      rfl (by decide) (by decide) rfl⟩

/-- C10 (confirmed): for every intercepted request the handler writes to the
store at most once; no write means the whole storage is unchanged; exactly
one write happens only on a cache miss with an eligible (200, basic/cors)
network response, and on that path the write is exactly the write-through of
that response into the current cache under the request's locator, which
leaves every other (cache name, locator) record unchanged. -/
theorem C10_frame_at_most_one_write (net : Net) (st : Storage) (req : Request) :
    (handleFetch net st req).cacheWrites ≤ 1 ∧
    ((handleFetch net st req).cacheWrites = 0 →
      (handleFetch net st req).storage = st) ∧
    ((handleFetch net st req).cacheWrites = 1 →
      req.method = "GET" ∧ cachesMatch st req.url = none ∧
      ∃ nr, net req.url = some nr ∧ nr.status = 200 ∧
        (nr.rtype = ResponseType.basic ∨ nr.rtype = ResponseType.cors) ∧
        (handleFetch net st req).storage =
          writeThrough st CACHE_NAME req.url nr) ∧
    (∀ name u, ¬(name = CACHE_NAME ∧ u = req.url) →
      storeMatch (openStore (handleFetch net st req).storage name) u =
      storeMatch (openStore st name) u) := by
  by_cases hm : req.method = "GET"
  · by_cases hub : strStartsWith req.url "http" = true
    · cases hcm : cachesMatch st req.url with
      | some r => simp [handleFetch, hm, hub, hcm]
      | none =>
        cases hnet : net req.url with
        | none => simp [handleFetch, hm, hub, hcm, hnet]
        | some nr =>
          by_cases h200 : nr.status = 200
          · by_cases hb : nr.rtype = ResponseType.basic
            · rw [handleFetch_eligible_eq net st req nr hm hub hcm hnet h200
                (Or.inl hb)]
              refine ⟨by simp, by simp, ?_, ?_⟩
              · intro _
                exact ⟨hm, rfl, nr, rfl, h200, Or.inl hb, rfl⟩
              · intro name u hx
                exact writeThrough_frame st req.url nr name u hx
            · by_cases hc : nr.rtype = ResponseType.cors
              · rw [handleFetch_eligible_eq net st req nr hm hub hcm hnet h200
                  (Or.inr hc)]
                refine ⟨by simp, by simp, ?_, ?_⟩
                · intro _
                  exact ⟨hm, rfl, nr, rfl, h200, Or.inr hc, rfl⟩
                · intro name u hx
                  exact writeThrough_frame st req.url nr name u hx
              · simp [handleFetch, hm, hub, hcm, hnet, h200, hb, hc]
          · simp [handleFetch, hm, hub, hcm, hnet, h200]
    · have hu' : strStartsWith req.url "http" = false := Bool.eq_false_iff.mpr hub
      rw [handleFetch_passthrough net st req (Or.inr hu')]
      simp
  · rw [handleFetch_passthrough net st req (Or.inl hm)]
    simp

/-- Witness for C10 at a concrete request and storage. -/
theorem C10_frame_at_most_one_write_witness :
    (handleFetch netAll200 [(CACHE_NAME, hitStore)] reqLib).cacheWrites ≤ 1 ∧
    ((handleFetch netAll200 [(CACHE_NAME, hitStore)] reqLib).cacheWrites = 0 →
      (handleFetch netAll200 [(CACHE_NAME, hitStore)] reqLib).storage =
        [(CACHE_NAME, hitStore)]) ∧
    ((handleFetch netAll200 [(CACHE_NAME, hitStore)] reqLib).cacheWrites = 1 →
      reqLib.method = "GET" ∧
      cachesMatch [(CACHE_NAME, hitStore)] reqLib.url = none ∧
      ∃ nr, netAll200 reqLib.url = some nr ∧ nr.status = 200 ∧
        (nr.rtype = ResponseType.basic ∨ nr.rtype = ResponseType.cors) ∧
        (handleFetch netAll200 [(CACHE_NAME, hitStore)] reqLib).storage =
          writeThrough [(CACHE_NAME, hitStore)] CACHE_NAME reqLib.url nr) ∧
    (∀ name u, ¬(name = CACHE_NAME ∧ u = reqLib.url) →
      storeMatch
        (openStore
          (handleFetch netAll200 [(CACHE_NAME, hitStore)] reqLib).storage name)
        u =
      storeMatch (openStore [(CACHE_NAME, hitStore)] name) u) :=
  C10_frame_at_most_one_write netAll200 [(CACHE_NAME, hitStore)] reqLib

end SW
